import Mathlib

/-!
Shallow embedding of the audio translation pipeline of this repository:
the state machine declared in lib/translation_pipeline_stack.py and the
two lambda handlers in lambda/filter.py and lambda/polly.py, together
with theorems settling the behavioural claims about its orchestration
logic. Remote capabilities (transcribe, translate, polly, the object
store) are modelled as an environment of functions that may fail with a
raw error name.
-/

/-- Python str.startswith on code-point sequences. -/
def pyStartswith (s p : String) : Bool := p.data.isPrefixOf s.data

/-- One arrival event: the bucket and key of a newly created object,
the two fields filter.py reads out of the S3 record. -/
structure ArrivalEvent where
  bucket : String
  key : String
deriving DecidableEq, Repr

/-- Return value of filter.handler: a dict carrying should_process,
with bucket and key present only in the accepting branch. -/
structure FilterResult where
  should_process : Bool
  bucket : Option String
  key : Option String
deriving DecidableEq, Repr

namespace Filter

/-- lambda/filter.py handler: rejects keys under the reserved output
namespace translations/ and otherwise passes bucket and key through.
The event envelope unpacking of Records[0].s3 is elided: the function
receives the bucket and key directly. -/
def handler (bucket key : String) : FilterResult :=
  if pyStartswith key "translations/" then
    { should_process := false, bucket := none, key := none }
  else
    { should_process := true, bucket := some bucket, key := some key }

end Filter

/-- Status of a remote transcription job as reported by the transcribe
capability. -/
inductive JobStatus
| IN_PROGRESS
| COMPLETED
| FAILED
deriving DecidableEq, Repr

/-- The TranscriptionJob record of the transcribe API, with the
Transcript.TranscriptFileUri field flattened into an optional string,
absent while the service has produced no transcript location. -/
structure TranscriptionJob where
  TranscriptionJobName : String
  TranscriptionJobStatus : JobStatus
  TranscriptFileUri : Option String
deriving DecidableEq, Repr

/-- The external collaborators the state machine invokes, each a
function that may fail with a raw error name (a service exception or
an uncaught lambda exception), plus the value the generate_uuid lambda
yields for this run. -/
structure Env where
  newId : String
  startTranscriptionJob : String → String → String → String → Except String TranscriptionJob
  getTranscriptionJob : String → Except String TranscriptionJob
  translateText : String → String → String → Except String String
  synthesizeSpeech : String → Except String (List Nat)
  putObject : String → String → List Nat → Except String Unit

/-- One collaborator invocation, recorded with the arguments the state
machine passes; the run function returns the full invocation trace. -/
inductive StageCall
| filterCall (bucket key : String)
| uuidCall
| startJobCall (jobName mediaUri outBucket outKey : String)
| getJobCall (jobName : String)
| translateCall (text srcLang tgtLang : String)
| synthesizeCall (text : String)
| putObjectCall (bucket key : String) (body : List Nat)
deriving DecidableEq, Repr

/-- Terminal result of one state machine execution: the Do Nothing pass
branch, a completed execution, or a failed execution carrying the raw
error name of the failing task. The definition wires no catch or retry
on any state, so the first task error fails the whole execution. -/
inductive ExecOutcome
| skipped
| succeeded
| failed (error : String)
deriving DecidableEq, Repr

/-- JSON escaping of one character inside a string value: quote and
backslash. Control characters, which never occur in the keys and uris
involved here, are left as they are. -/
def jsonEscapeChar (c : Char) : List Char :=
  if c = '\\' ∨ c = '"' then ['\\', c] else [c]

/-- The States.JsonToString intrinsic applied to a string node: the
JSON serialization, a quoted and escaped copy of the string. -/
def statesJsonToString (s : String) : String :=
  String.mk ('"' :: ((s.data.map jsonEscapeChar).flatten ++ ['"']))

/-- Output key of the Transcribe state: States.Format joining
transcriptions/ with the run uuid and the .json ending. -/
def transcribeOutputKey (uuid : String) : String :=
  "transcriptions/" ++ uuid ++ ".json"

/-- Key the Synthesize Speech state writes the audio to: States.Format
joining translations/ with the run uuid and the .mp3 ending. -/
def outputKey (uuid : String) : String :=
  "translations/" ++ uuid ++ ".mp3"

/-- Modelled from the spec: the generate_uuid lambda, referenced by the
stack as handler generate_uuid.handler, is not among the source files.
Per the spec, RunIdentifier newId yields one fresh correlation id per
run; the handler returns the state document enriched with that id as
the uuid field, preserving the rest of the document, as the later
states that read both the uuid and the filter_result fields require. -/
def generate_uuid_handler (freshId : String) (doc : ArrivalEvent × FilterResult) :
    String × ArrivalEvent × FilterResult :=
  (freshId, doc)

namespace Polly

/-- lambda/polly.py handler: synthesize speech for the given text and
put the resulting audio bytes at the given bucket and key, returning
status code 200. Any client error is an uncaught exception, modelled
as the error branch. -/
def handler (env : Env) (text bucket_name key : String) :
    Except String Nat × List StageCall :=
  match env.synthesizeSpeech text with
  | .error e => (.error e, [.synthesizeCall text])
  | .ok audio =>
    match env.putObject bucket_name key audio with
    | .error e => (.error e, [.synthesizeCall text, .putObjectCall bucket_name key audio])
    | .ok _ => (.ok 200, [.synthesizeCall text, .putObjectCall bucket_name key audio])

end Polly

/-- The chain behind the true branch of the Should Process choice:
Transcribe, Get Transcription, Translate, Synthesize Speech, applied
after Filter and Generate UUID have run on the event with bucket b and
key k. Data paths follow the source: Transcribe formats the media uri
from the filter result and names the job from the uuid; Get
Transcription queries the name returned by the submission and its
result selector extracts TranscriptFileUri, failing the state with a
States.Runtime error when that path is absent; Translate receives
States.JsonToString of the extracted uri with source auto and target
en; Synthesize Speech invokes the polly handler with the translated
text, the stack bucket and the run output key. -/
def processChain (env : Env) (pipelineBucket : String) (ev : ArrivalEvent)
    (uuid b k : String) : ExecOutcome × List StageCall :=
  let jobName := "transcription-" ++ uuid
  let mediaUri := "s3://" ++ b ++ "/" ++ k
  match env.startTranscriptionJob jobName mediaUri pipelineBucket (transcribeOutputKey uuid) with
  | .error e =>
    (.failed e,
     [.filterCall ev.bucket ev.key, .uuidCall,
      .startJobCall jobName mediaUri pipelineBucket (transcribeOutputKey uuid)])
  | .ok job =>
    match env.getTranscriptionJob job.TranscriptionJobName with
    | .error e =>
      (.failed e,
       [.filterCall ev.bucket ev.key, .uuidCall,
        .startJobCall jobName mediaUri pipelineBucket (transcribeOutputKey uuid),
        .getJobCall job.TranscriptionJobName])
    | .ok job2 =>
      match job2.TranscriptFileUri with
      | none =>
        (.failed "States.Runtime",
         [.filterCall ev.bucket ev.key, .uuidCall,
          .startJobCall jobName mediaUri pipelineBucket (transcribeOutputKey uuid),
          .getJobCall job.TranscriptionJobName])
      | some uri =>
        let text := statesJsonToString uri
        match env.translateText text "auto" "en" with
        | .error e =>
          (.failed e,
           [.filterCall ev.bucket ev.key, .uuidCall,
            .startJobCall jobName mediaUri pipelineBucket (transcribeOutputKey uuid),
            .getJobCall job.TranscriptionJobName,
            .translateCall text "auto" "en"])
        | .ok translated =>
          match Polly.handler env translated pipelineBucket (outputKey uuid) with
          | (.error e, calls) =>
            (.failed e,
             [.filterCall ev.bucket ev.key, .uuidCall,
              .startJobCall jobName mediaUri pipelineBucket (transcribeOutputKey uuid),
              .getJobCall job.TranscriptionJobName,
              .translateCall text "auto" "en"] ++ calls)
          | (.ok _, calls) =>
            (.succeeded,
             [.filterCall ev.bucket ev.key, .uuidCall,
              .startJobCall jobName mediaUri pipelineBucket (transcribeOutputKey uuid),
              .getJobCall job.TranscriptionJobName,
              .translateCall text "auto" "en"] ++ calls)

/-- The state machine of TranslationPipelineStack: Filter, then the
Should Process choice on filter_result.should_process; when true, the
chain Generate UUID, Transcribe, Get Transcription, Translate,
Synthesize Speech; when false, the Do Nothing pass state. Reading a
missing filter_result field fails the execution with a States.Runtime
error. -/
def run (env : Env) (pipelineBucket : String) (ev : ArrivalEvent) :
    ExecOutcome × List StageCall :=
  let fr := Filter.handler ev.bucket ev.key
  if fr.should_process then
    let uuid := (generate_uuid_handler env.newId (ev, fr)).1
    match fr.bucket, fr.key with
    | some b, some k => processChain env pipelineBucket ev uuid b k
    | _, _ => (.failed "States.Runtime", [.filterCall ev.bucket ev.key, .uuidCall])
  else
    (.skipped, [.filterCall ev.bucket ev.key])

/-- A collaborator environment on which every call succeeds, used to
evaluate the embedding on closed inputs. -/
def envOk : Env where
  newId := "run1"
  startTranscriptionJob := fun j _ _ _ => .ok ⟨j, JobStatus.IN_PROGRESS, none⟩
  getTranscriptionJob := fun j => .ok ⟨j, JobStatus.COMPLETED, some "https://s3/b/transcriptions/run1.json"⟩
  translateText := fun _ _ _ => .ok "hello"
  synthesizeSpeech := fun _ => .ok [1, 2]
  putObject := fun _ _ _ => .ok ()

lemma isPrefixOf_append_left (l t : List Char) : l.isPrefixOf (l ++ t) = true := by
  simp

lemma eq_append_of_isPrefixOf {l m : List Char} (h : l.isPrefixOf m = true) :
    ∃ t, m = l ++ t := by
  simp at h
  obtain ⟨t, ht⟩ := h
  exact ⟨t, ht.symm⟩

lemma pyStartswith_outputKey (uuid : String) :
    pyStartswith (outputKey uuid) "translations/" = true := by
  unfold pyStartswith outputKey
  rw [String.data_append, String.data_append, List.append_assoc]
  exact isPrefixOf_append_left _ _

lemma pyStartswith_transcribeOutputKey (uuid : String) :
    pyStartswith (transcribeOutputKey uuid) "transcriptions/" = true := by
  unfold pyStartswith transcribeOutputKey
  rw [String.data_append, String.data_append, List.append_assoc]
  exact isPrefixOf_append_left _ _

lemma run_of_reserved {env : Env} {bkt : String} {ev : ArrivalEvent}
    (h : pyStartswith ev.key "translations/" = true) :
    run env bkt ev = (.skipped, [.filterCall ev.bucket ev.key]) := by
  simp [run, Filter.handler, h]

lemma run_of_not_reserved {env : Env} {bkt : String} {ev : ArrivalEvent}
    (h : pyStartswith ev.key "translations/" = false) :
    run env bkt ev = processChain env bkt ev env.newId ev.bucket ev.key := by
  simp [run, Filter.handler, generate_uuid_handler, h]

lemma putObjectCall_mem_polly {env : Env} {text bn key b k : String} {body : List Nat}
    (h : StageCall.putObjectCall b k body ∈ (Polly.handler env text bn key).2) :
    b = bn ∧ k = key := by
  simp only [Polly.handler] at h
  repeat' split at h
  all_goals simp_all

lemma putObjectCall_mem_processChain {env : Env} {bkt : String} {ev : ArrivalEvent}
    {uuid eb ek b k : String} {body : List Nat}
    (h : StageCall.putObjectCall b k body ∈ (processChain env bkt ev uuid eb ek).2) :
    b = bkt ∧ k = outputKey uuid := by
  simp only [processChain] at h
  split at h
  · simp at h
  · split at h
    · simp at h
    · split at h
      · simp at h
      · split at h
        · simp at h
        · split at h <;>
          · rename_i translated htr q e calls heq
            rw [List.mem_append] at h
            rcases h with h | h
            · simp at h
            · have h2 : StageCall.putObjectCall b k body ∈
                  (Polly.handler env translated bkt (outputKey uuid)).2 := by
                rw [heq]
                exact h
              exact putObjectCall_mem_polly h2

lemma putObjectCall_mem_run {env : Env} {bkt : String} {ev : ArrivalEvent}
    {b k : String} {body : List Nat}
    (h : StageCall.putObjectCall b k body ∈ (run env bkt ev).2) :
    b = bkt ∧ k = outputKey env.newId := by
  cases hsw : pyStartswith ev.key "translations/" with
  | true =>
    rw [run_of_reserved hsw] at h
    simp at h
  | false =>
    rw [run_of_not_reserved hsw] at h
    exact putObjectCall_mem_processChain h

lemma isPrefixOf_append_of_le {α : Type} [BEq α] (l : List α) :
    ∀ (m t : List α), l.length ≤ m.length →
      l.isPrefixOf (m ++ t) = l.isPrefixOf m := by
  induction l with
  | nil => intro m t _; simp
  | cons a as ih =>
    intro m t hlen
    cases m with
    | nil => simp at hlen
    | cons b bs =>
      simp only [List.cons_append, List.isPrefixOf_cons₂]
      rw [ih bs t (by simpa using hlen)]

lemma not_reserved_of_transcriptions {keyStr : String}
    (h : pyStartswith keyStr "transcriptions/" = true) :
    pyStartswith keyStr "translations/" = false := by
  unfold pyStartswith at h ⊢
  obtain ⟨t, ht⟩ := eq_append_of_isPrefixOf h
  rw [ht, isPrefixOf_append_of_le _ _ _ (by decide)]
  decide

lemma polly_count_uuid (env : Env) (text bn key : String) :
    ((Polly.handler env text bn key).2.count StageCall.uuidCall) = 0 := by
  simp only [Polly.handler]
  repeat' split
  all_goals rfl

lemma processChain_uuid_count (env : Env) (bkt : String) (ev : ArrivalEvent)
    (uuid b k : String) :
    ((processChain env bkt ev uuid b k).2.count StageCall.uuidCall) = 1 := by
  simp only [processChain]
  split
  · rfl
  · split
    · rfl
    · split
      · rfl
      · split
        · rfl
        · split <;>
          · rename_i translated htr q e calls heq
            have hc2 : calls.count StageCall.uuidCall = 0 := by
              have hp := polly_count_uuid env translated bkt (outputKey uuid)
              rw [heq] at hp
              exact hp
            rw [List.count_append, hc2]
            rfl

lemma processChain_outcome (env : Env) (bkt : String) (ev : ArrivalEvent)
    (uuid b k : String) :
    (processChain env bkt ev uuid b k).1 = .succeeded ∨
      ∃ e, (processChain env bkt ev uuid b k).1 = .failed e := by
  simp only [processChain]
  repeat' split
  all_goals simp

/-- A collaborator environment whose transcription job stays
IN_PROGRESS with no transcript location, however often it is queried. -/
def envInProgress : Env :=
  { envOk with
    getTranscriptionJob := fun j => .ok ⟨j, JobStatus.IN_PROGRESS, none⟩ }

/-- A collaborator environment whose status query reports a job that is
still IN_PROGRESS yet carries an empty TranscriptFileUri value. -/
def envUncheckedStatus : Env :=
  { envOk with
    getTranscriptionJob := fun j => .ok ⟨j, JobStatus.IN_PROGRESS, some ""⟩ }

/-- A collaborator environment whose translate call raises a service
exception. -/
def envTranslateFail : Env :=
  { envOk with translateText := fun _ _ _ => .error "TranslateException" }

/-- A collaborator environment whose speech synthesis call raises a
service exception. -/
def envSynthFail : Env :=
  { envOk with synthesizeSpeech := fun _ => .error "ServiceException" }

/-- Claim C1: for every arrival event whose key starts with the
reserved output namespace translations/, the filter decision has
should_process false, the run takes the Do Nothing branch and ends
skipped, and no stage after Filter is invoked: the trace holds the
filter call alone. -/
theorem reserved_key_skips_run (env : Env) (bkt : String) (ev : ArrivalEvent)
    (h : pyStartswith ev.key "translations/" = true) :
    (Filter.handler ev.bucket ev.key).should_process = false ∧
    run env bkt ev = (.skipped, [.filterCall ev.bucket ev.key]) := by
  constructor
  · simp [Filter.handler, h]
  · exact run_of_reserved h

theorem reserved_key_skips_run_witness :
    pyStartswith "translations/x.mp3" "translations/" = true ∧
    ((Filter.handler "b" "translations/x.mp3").should_process = false ∧
     run envOk "b" ⟨"b", "translations/x.mp3"⟩ =
       (.skipped, [.filterCall "b" "translations/x.mp3"])) :=
  ⟨by decide, reserved_key_skips_run envOk "b" ⟨"b", "translations/x.mp3"⟩ (by decide)⟩

/-- Claim C2, settling it against the code: with a remote job that
stays IN_PROGRESS, the status is queried exactly once and the
execution fails with the raw States.Runtime path error of the result
selector; the code has no polling loop, no timeout budget and no
distinct TranscriptionTimeout outcome. -/
theorem single_status_query_no_timeout :
    envInProgress.getTranscriptionJob "transcription-run1" =
      .ok ⟨"transcription-run1", JobStatus.IN_PROGRESS, none⟩ ∧
    run envInProgress "b" ⟨"b", "uploads/a.wav"⟩ =
      (.failed "States.Runtime",
       [.filterCall "b" "uploads/a.wav", .uuidCall,
        .startJobCall "transcription-run1" "s3://b/uploads/a.wav" "b"
          "transcriptions/run1.json",
        .getJobCall "transcription-run1"]) ∧
    (run envInProgress "b" ⟨"b", "uploads/a.wav"⟩).2.count
      (.getJobCall "transcription-run1") = 1 :=
  ⟨rfl, by decide, by decide⟩

/-- Claim C3, settling it against the code: the status query result is
accepted whenever the TranscriptFileUri path resolves; with a job
whose reported status is IN_PROGRESS and whose uri is the empty
string, the run still reaches Translate and ends succeeded, so success
requires neither an observed COMPLETED status nor a non-empty uri. -/
theorem unchecked_status_reaches_success :
    envUncheckedStatus.getTranscriptionJob "transcription-run1" =
      .ok ⟨"transcription-run1", JobStatus.IN_PROGRESS, some ""⟩ ∧
    (run envUncheckedStatus "b" ⟨"b", "uploads/a.wav"⟩).1 = .succeeded ∧
    StageCall.translateCall (statesJsonToString "") "auto" "en" ∈
      (run envUncheckedStatus "b" ⟨"b", "uploads/a.wav"⟩).2 :=
  ⟨rfl, by decide, by decide⟩

/-- Claim C4, settling it against the code: in a successful run the
Text argument of Translate is the States.JsonToString serialization of
the TranscriptFileUri value itself, a quoted copy of the uri; the full
trace shows no storage read of the transcript content anywhere. -/
theorem translate_receives_uri_not_content :
    run envOk "b" ⟨"b", "uploads/a.wav"⟩ =
      (.succeeded,
       [.filterCall "b" "uploads/a.wav", .uuidCall,
        .startJobCall "transcription-run1" "s3://b/uploads/a.wav" "b"
          "transcriptions/run1.json",
        .getJobCall "transcription-run1",
        .translateCall (statesJsonToString "https://s3/b/transcriptions/run1.json")
          "auto" "en",
        .synthesizeCall "hello",
        .putObjectCall "b" "translations/run1.mp3" [1, 2]]) ∧
    statesJsonToString "https://s3/b/transcriptions/run1.json" =
      "\"https://s3/b/transcriptions/run1.json\"" := by
  decide

/-- Claim C5: every write of the final artifact goes to the stack
bucket at the key derived deterministically from the run id under
translations/, and feeding that key back into the filter yields
should_process false for any bucket. -/
theorem output_key_reserved_and_rejected (env : Env) (bkt : String)
    (ev : ArrivalEvent) (b k : String) (body : List Nat)
    (h : StageCall.putObjectCall b k body ∈ (run env bkt ev).2) :
    b = bkt ∧ k = outputKey env.newId ∧
    pyStartswith k "translations/" = true ∧
    ∀ b2, (Filter.handler b2 k).should_process = false := by
  obtain ⟨hb, hk⟩ := putObjectCall_mem_run h
  subst hk
  refine ⟨hb, rfl, pyStartswith_outputKey _, ?_⟩
  intro b2
  simp [Filter.handler, pyStartswith_outputKey]

theorem output_key_reserved_and_rejected_witness :
    StageCall.putObjectCall "b" "translations/run1.mp3" [1, 2] ∈
      (run envOk "b" ⟨"b", "uploads/a.wav"⟩).2 ∧
    ("b" = "b" ∧ "translations/run1.mp3" = outputKey envOk.newId ∧
     pyStartswith "translations/run1.mp3" "translations/" = true ∧
     ∀ b2, (Filter.handler b2 "translations/run1.mp3").should_process = false) :=
  ⟨by decide,
   output_key_reserved_and_rejected envOk "b" ⟨"b", "uploads/a.wav"⟩
     "b" "translations/run1.mp3" [1, 2] (by decide)⟩

/-- Claim C6, settling it against the code: a collaborator failure, a
speech synthesis exception here, terminates the execution with the raw
error name alone: the outcome carries no stage name and no structured
error kind, and the definition wires no catch to translate it. -/
theorem collaborator_failure_is_raw_error :
    run envSynthFail "b" ⟨"b", "uploads/a.wav"⟩ =
      (.failed "ServiceException",
       [.filterCall "b" "uploads/a.wav", .uuidCall,
        .startJobCall "transcription-run1" "s3://b/uploads/a.wav" "b"
          "transcriptions/run1.json",
        .getJobCall "transcription-run1",
        .translateCall (statesJsonToString "https://s3/b/transcriptions/run1.json")
          "auto" "en",
        .synthesizeCall "hello"]) := by
  decide

/-- Claim C7, settling it against the code: when Translate fails, the
execution stops there with the raw translate error; no speech
synthesis call and no storage write appear in the trace, but the
outcome is the raw error, not a structured value naming kind and
stage. -/
theorem translate_failure_aborts_run :
    run envTranslateFail "b" ⟨"b", "uploads/a.wav"⟩ =
      (.failed "TranslateException",
       [.filterCall "b" "uploads/a.wav", .uuidCall,
        .startJobCall "transcription-run1" "s3://b/uploads/a.wav" "b"
          "transcriptions/run1.json",
        .getJobCall "transcription-run1",
        .translateCall (statesJsonToString "https://s3/b/transcriptions/run1.json")
          "auto" "en"]) ∧
    ((run envTranslateFail "b" ⟨"b", "uploads/a.wav"⟩).2.countP
      (fun c => match c with
        | StageCall.synthesizeCall _ => true
        | StageCall.putObjectCall _ _ _ => true
        | _ => false)) = 0 := by
  decide

/-- Claim C8: for an arrival event whose key is not under the reserved
output namespace, the single terminal outcome of one run is never the
skip branch, it is the completed or the failed execution, and the
Generate UUID state runs exactly once. -/
theorem nonreserved_run_uuid_once (env : Env) (bkt : String)
    (ev : ArrivalEvent) (h : pyStartswith ev.key "translations/" = false) :
    (run env bkt ev).1 ≠ ExecOutcome.skipped ∧
    ((run env bkt ev).1 = .succeeded ∨ ∃ e, (run env bkt ev).1 = .failed e) ∧
    (run env bkt ev).2.count StageCall.uuidCall = 1 := by
  rw [run_of_not_reserved h]
  refine ⟨?_, processChain_outcome env bkt ev env.newId ev.bucket ev.key,
    processChain_uuid_count env bkt ev env.newId ev.bucket ev.key⟩
  rcases processChain_outcome env bkt ev env.newId ev.bucket ev.key with h1 | ⟨e, h1⟩ <;>
    simp [h1]

theorem nonreserved_run_uuid_once_witness :
    pyStartswith "uploads/a.wav" "translations/" = false ∧
    ((run envOk "b" ⟨"b", "uploads/a.wav"⟩).1 ≠ ExecOutcome.skipped ∧
     ((run envOk "b" ⟨"b", "uploads/a.wav"⟩).1 = .succeeded ∨
       ∃ e, (run envOk "b" ⟨"b", "uploads/a.wav"⟩).1 = .failed e) ∧
     (run envOk "b" ⟨"b", "uploads/a.wav"⟩).2.count StageCall.uuidCall = 1) :=
  ⟨by decide, nonreserved_run_uuid_once envOk "b" ⟨"b", "uploads/a.wav"⟩ (by decide)⟩

/-- Claim C9: two runs on the same arrival event in which the run
identifier yields the same fixed id write their artifacts to identical
output keys, whatever the other collaborators return. -/
theorem fixed_id_identical_output_keys (env1 env2 : Env) (bkt1 bkt2 : String)
    (ev : ArrivalEvent) (b1 k1 b2 k2 : String) (bd1 bd2 : List Nat)
    (hid : env1.newId = env2.newId)
    (h1 : StageCall.putObjectCall b1 k1 bd1 ∈ (run env1 bkt1 ev).2)
    (h2 : StageCall.putObjectCall b2 k2 bd2 ∈ (run env2 bkt2 ev).2) :
    k1 = k2 := by
  rw [(putObjectCall_mem_run h1).2, (putObjectCall_mem_run h2).2, hid]

theorem fixed_id_identical_output_keys_witness :
    envOk.newId = envOk.newId ∧
    StageCall.putObjectCall "b" "translations/run1.mp3" [1, 2] ∈
      (run envOk "b" ⟨"b", "uploads/a.wav"⟩).2 ∧
    ("translations/run1.mp3" : String) = "translations/run1.mp3" :=
  ⟨rfl, by decide,
   fixed_id_identical_output_keys envOk envOk "b" "b" ⟨"b", "uploads/a.wav"⟩
     "b" "translations/run1.mp3" "b" "translations/run1.mp3" [1, 2] [1, 2] rfl
     (by decide) (by decide)⟩

/-- Claim C10: every key under transcriptions/, the namespace where the
Transcribe state writes its intermediate transcript json into the same
bucket, passes the filter with should_process true: only the
translations/ namespace is excluded, and the transcribe output key for
any run id lies under transcriptions/. -/
theorem transcription_keys_remain_eligible (ev : ArrivalEvent)
    (h : pyStartswith ev.key "transcriptions/" = true) :
    (Filter.handler ev.bucket ev.key).should_process = true ∧
    ∀ uuid, pyStartswith (transcribeOutputKey uuid) "transcriptions/" = true := by
  refine ⟨?_, pyStartswith_transcribeOutputKey⟩
  simp [Filter.handler, not_reserved_of_transcriptions h]

theorem transcription_keys_remain_eligible_witness :
    pyStartswith "transcriptions/run1.json" "transcriptions/" = true ∧
    ((Filter.handler "b" "transcriptions/run1.json").should_process = true ∧
     ∀ uuid, pyStartswith (transcribeOutputKey uuid) "transcriptions/" = true) :=
  ⟨by decide,
   transcription_keys_remain_eligible ⟨"b", "transcriptions/run1.json"⟩ (by decide)⟩
